import Mathlib

/-!
Verification development for the Affinity / Synchrony relationship-intelligence
repository.  The repository ships the frontend (Next.js dashboard), the
WhatsApp live-capture bridge (`whatsapp-bridge/index.js`) and the project
documentation; the Python backend (`scoring.py`, `graph.py`) that implements
the 8-layer scoring engine and the LangGraph router is not part of the
source tree available here, so those components are modelled from the
specification, as flagged in the doc comments below.  Numeric computations
use `ℚ` (and `ℝ` for the two logarithmic layers); machine floats are modelled
as exact arithmetic.
-/

namespace Affinity

/-- A normalized message record as produced by the ingestion collaborators:
sender (the conversation is between exactly two people, so a sender is a
Boolean tag), timestamp in whole seconds, and message text. -/
structure Msg where
  sender : Bool
  timestamp : Int
  text : String
deriving DecidableEq

/-- Clamp a rational into `[0, 10]` (the "clipped to [0,10]" of the
composite-score documentation). -/
def clamp010 (x : ℚ) : ℚ := max 0 (min 10 x)

/-- Clamp a real into `[0, 10]`; used for the two layers computed with
logarithms. -/
noncomputable def clamp010R (x : ℝ) : ℝ := max 0 (min 10 x)

/-- Average of a list of rationals, `0` (the neutral default) on the empty
list. -/
def ratAvg (l : List ℚ) : ℚ :=
  if l = [] then 0 else l.sum / l.length

/-- Messages of one sender, in order. -/
def senderMsgs (s : Bool) (msgs : List Msg) : List Msg :=
  msgs.filter (fun m => m.sender = s)

/-! ### Layer 6 — Gottman 5:1 ratio status (modelled from the spec) -/

/-- Modelled from the spec: the Gottman status thresholds of §4.6 of the
specification (backend `scoring.py` is not in the source tree).
`ratio ≥ 5 → "Thriving"`, `≥ 3 → "Stable"`, `≥ 1 → "At Risk"`,
`< 1 → "Critical"`. -/
def gottmanStatus (r : ℚ) : String :=
  if 5 ≤ r then "Thriving"
  else if 3 ≤ r then "Stable"
  else if 1 ≤ r then "At Risk"
  else "Critical"

/-! ### Router (modelled from the spec) -/

/-- The three LangGraph routing nodes reachable from `route`. -/
inductive Node where
  | conflict_resolve
  | re_engage
  | log_memory
deriving DecidableEq

/-- The persisted route enum of the data model (§3): the dashboard matches a
route against exactly the strings `conflict`, `drifting`, `stable`. -/
inductive Route where
  | conflict
  | drifting
  | stable
deriving DecidableEq

/-- The fixed correspondence between routing nodes and the persisted route
enum. -/
def Node.toRoute : Node → Route
  | .conflict_resolve => .conflict
  | .re_engage => .drifting
  | .log_memory => .stable

/-- Modelled from the spec: the deterministic routing rule of §4.10 (backend
`graph.py` is not in the source tree).  Rules are evaluated in priority
order, first match wins:
1. `Heat ≥ 6` or Gottman status `"Critical"` → `conflict_resolve`;
2. `Decay ≥ 6` or effort severely imbalanced (composite effort below the
   fixed threshold `0.25`; in the chosen normalization both directions of
   imbalance lower the composite) → `re_engage`;
3. otherwise → `log_memory`. -/
noncomputable def routeNode (heat decay : ℝ) (gstatus : String) (effort : ℚ) : Node :=
  if 6 ≤ heat ∨ gstatus = "Critical" then .conflict_resolve
  else if 6 ≤ decay ∨ effort < 1/4 then .re_engage
  else .log_memory

/-! ### Composite-score weight table (modelled from the spec) -/

/-- Modelled from the spec: the declared weight of the VADER layer. -/
def wVader : ℚ := 15/100

/-- Modelled from the spec: the declared weight of the frequency layer. -/
def wFreq : ℚ := 15/100

/-- Modelled from the spec: the declared weight of the LLM layer. -/
def wLlm : ℚ := 20/100

/-- Modelled from the spec: the declared weight of the effort layer. -/
def wEffort : ℚ := 15/100

/-- Modelled from the spec: the declared weight of the Gottman layer. -/
def wGottman : ℚ := 10/100

/-- Modelled from the spec: the declared weight of the entropy layer. -/
def wEntropy : ℚ := 10/100

/-- Modelled from the spec: the declared weight of the mirroring layer. -/
def wMirroring : ℚ := 10/100

/-- Modelled from the spec: the declared weight of the KL-drift layer. -/
def wKl : ℚ := 5/100

/-- Modelled from the spec: the constant weight table of the composite
scorer (§4.9), in layer order L1–L8. -/
def weightTable : List ℚ :=
  [wVader, wFreq, wLlm, wEffort, wGottman, wEntropy, wMirroring, wKl]

/-! ### Sørensen–Dice emoji reciprocity (Layer 7, modelled from the spec) -/

/-- Modelled from the spec: the Sørensen–Dice coefficient
`2·|A∩B| / (|A|+|B|)` over two finite sets, defined as `1` when both sets
are empty (§4.7). -/
def dice (A B : Finset Char) : ℚ :=
  if A = ∅ ∧ B = ∅ then 1
  else (2 * (A ∩ B).card : ℚ) / ((A.card : ℚ) + (B.card : ℚ))

/-- The set of distinct emoji (non-ASCII codepoints) used by one sender. -/
def emojiSet (s : Bool) (msgs : List Msg) : Finset Char :=
  ((senderMsgs s msgs).flatMap (fun m => m.text.toList.filter (fun c => 127 < c.toNat))).toFinset

/-- Modelled from the spec: Layer-7 emoji reciprocity — the Dice coefficient
over the two senders' distinct-emoji sets. -/
def emojiReciprocity (msgs : List Msg) : ℚ :=
  dice (emojiSet true msgs) (emojiSet false msgs)

/-! ### Layer 1 — VADER-class sentiment (modelled from the spec)

The lexicon analyzer itself is an external deterministic function; it is
passed in as a parameter `comp : String → ℚ` yielding the compound score of
a text, assumed (and, for the concrete instantiations used here, proved) to
lie in `[-1, 1]`. -/

/-- Modelled from the spec: average compound sentiment over a message list
(neutral default `0` when empty). -/
def avgCompound (comp : String → ℚ) (msgs : List Msg) : ℚ :=
  ratAvg (msgs.map (fun m => comp m.text))

/-- Modelled from the spec: per-sender average compound score (§4.1). -/
def senderAvgCompound (comp : String → ℚ) (s : Bool) (msgs : List Msg) : ℚ :=
  avgCompound comp (senderMsgs s msgs)

/-- First half of a message sequence, split by count; with an odd count the
extra message goes to the second half (§4.1). -/
def firstHalf (msgs : List Msg) : List Msg := msgs.take (msgs.length / 2)

/-- Second half of a message sequence (see `firstHalf`). -/
def secondHalf (msgs : List Msg) : List Msg := msgs.drop (msgs.length / 2)

/-- Modelled from the spec: sentiment trajectory = average of the second
half minus average of the first half; `0` in the degenerate case of at most
one message (§4.1). -/
def trajectory (comp : String → ℚ) (msgs : List Msg) : ℚ :=
  if msgs.length ≤ 1 then 0
  else avgCompound comp (secondHalf msgs) - avgCompound comp (firstHalf msgs)

/-! ### Layer 2 — frequency / behavioral statistics (modelled from the spec) -/

/-- Length of a message text in characters, as a rational. -/
def msgLen (m : Msg) : ℚ := (m.text.length : ℚ)

/-- Modelled from the spec: mean message length in characters (neutral
default `0` when there are no messages). -/
def avgLen (msgs : List Msg) : ℚ := ratAvg (msgs.map msgLen)

/-- Modelled from the spec: message-count ratio between the two senders
(§4.2): `1` if both counts are zero, a large sentinel (`999`) if only the
denominator is zero. -/
def countRat (msgs : List Msg) : ℚ :=
  if (senderMsgs true msgs).length = 0 ∧ (senderMsgs false msgs).length = 0 then 1
  else if (senderMsgs false msgs).length = 0 then 999
  else ((senderMsgs true msgs).length : ℚ) / ((senderMsgs false msgs).length : ℚ)

/-- A message is a one-word reply when its text has no embedded
whitespace. -/
def oneWord (m : Msg) : Bool := ¬ m.text.toList.any Char.isWhitespace

/-- Modelled from the spec: fraction of one-word replies (§4.2), `0` on the
empty sequence. -/
def oneWordFrac (msgs : List Msg) : ℚ :=
  if msgs = [] then 0
  else ((msgs.filter oneWord).length : ℚ) / (msgs.length : ℚ)

/-- Fraction of non-ASCII codepoints in one message (`0` for empty text). -/
def msgEmojiFrac (m : Msg) : ℚ :=
  if m.text.toList = [] then 0
  else ((m.text.toList.filter (fun c => 127 < c.toNat)).length : ℚ) /
    (m.text.toList.length : ℚ)

/-- Modelled from the spec: emoji density (§4.2) — per-message fraction of
non-ASCII codepoints, averaged over the sequence. -/
def emojiDensity (msgs : List Msg) : ℚ := ratAvg (msgs.map msgEmojiFrac)

/-! ### Layer 5 — effort score (modelled from the spec) -/

/-- The fixed conversation-restart gap threshold: 6 hours, in seconds
(§4.5). -/
def restartGap : Int := 21600

/-- The bounded follow-up window for counting a reply as an answer to a
question: 24 hours, in seconds (§4.5, window size an explicit documented
design choice). -/
def answerWindow : Int := 86400

/-- Consecutive pairs of a message sequence. -/
def consecutive (msgs : List Msg) : List (Msg × Msg) := msgs.zip msgs.tail

/-- Conversation restarts: messages following a gap of at least
`restartGap` seconds (§4.5). -/
def restarts (msgs : List Msg) : List Msg :=
  ((consecutive msgs).filter
    (fun p => restartGap ≤ p.2.timestamp - p.1.timestamp)).map Prod.snd

/-- Modelled from the spec: initiation ratio — the fraction of restarts
initiated by sender `A` (`true`), `1/2` (perfect balance) when there are no
restarts. -/
def initRat (msgs : List Msg) : ℚ :=
  if restarts msgs = [] then 1/2
  else (((restarts msgs).filter (fun m => m.sender)).length : ℚ) /
    ((restarts msgs).length : ℚ)

/-- Modelled from the spec: the documented monotone symmetric normalization
of the initiation ratio into `[0,1]` with `0.5` (balance) mapped to `1`:
`1 - 2*|ratio - 0.5|` (§9, open question resolved as suggested there). -/
def initNorm (msgs : List Msg) : ℚ := 1 - 2 * |initRat msgs - 1/2|

/-- A message counts as a question when its text ends in `?` (§4.5). -/
def isQuestion (m : Msg) : Bool := m.text.toList.getLast? = some '?'

/-- Whether a question message is answered by the rest of the conversation:
the next message from the other sender exists and falls within the bounded
follow-up window (§4.5). -/
def answered (q : Msg) : List Msg → Bool
  | [] => false
  | m :: rest =>
    if m.sender ≠ q.sender then m.timestamp - q.timestamp ≤ answerWindow
    else answered q rest

/-- Count of `(questions asked by s, questions of s answered)` over a
message sequence. -/
def countQA (s : Bool) : List Msg → Nat × Nat
  | [] => (0, 0)
  | m :: rest =>
    if m.sender = s ∧ isQuestion m then
      ((countQA s rest).1 + 1,
        (countQA s rest).2 + (if answered m rest then 1 else 0))
    else countQA s rest

/-- Question reciprocity in one direction: answered/asked, `1` (vacuously
reciprocated) when the sender asked no questions. -/
def questionRecipOne (s : Bool) (msgs : List Msg) : ℚ :=
  if (countQA s msgs).1 = 0 then 1
  else ((countQA s msgs).2 : ℚ) / ((countQA s msgs).1 : ℚ)

/-- Modelled from the spec: question reciprocity, symmetrically averaged
over both directions (§4.5). -/
def questionRecip (msgs : List Msg) : ℚ :=
  (questionRecipOne true msgs + questionRecipOne false msgs) / 2

/-- Modelled from the spec: length disparity
`1 - |avgLenA - avgLenB| / max(avgLenA, avgLenB)`, defined as `1` when both
averages are zero (§4.5, identically §4.7). -/
def lengthDisparity (msgs : List Msg) : ℚ :=
  if avgLen (senderMsgs true msgs) = 0 ∧ avgLen (senderMsgs false msgs) = 0 then 1
  else 1 - |avgLen (senderMsgs true msgs) - avgLen (senderMsgs false msgs)| /
    max (avgLen (senderMsgs true msgs)) (avgLen (senderMsgs false msgs))

/-- Modelled from the spec: composite effort
`0.4·initiation + 0.3·questions + 0.3·length`, each sub-metric
pre-normalized into `[0,1]` (§4.5). -/
def effortScore (msgs : List Msg) : ℚ :=
  4/10 * initNorm msgs + 3/10 * questionRecip msgs + 3/10 * lengthDisparity msgs

/-! ### Layer 6 — Gottman ratio over a message sequence (modelled from the
spec) -/

/-- Count of positive messages: compound `> 0.05` (§4.6). -/
def positiveCount (comp : String → ℚ) (msgs : List Msg) : Nat :=
  (msgs.filter (fun m => decide (1/20 < comp m.text))).length

/-- Count of negative messages: compound `< -0.05` (§4.6). -/
def negativeCount (comp : String → ℚ) (msgs : List Msg) : Nat :=
  (msgs.filter (fun m => decide (comp m.text < -(1/20)))).length

/-- Modelled from the spec: the Gottman positive-to-negative ratio (§4.6):
`positive / max(negative, 1)`; when there are no negatives the raw positive
count is capped at the reporting ceiling `99`.  On the empty sequence the
layer degrades to the neutral default ratio `1` (balanced), which is what
makes the empty sequence route to `log_memory` as §8 requires. -/
def gottmanRat (comp : String → ℚ) (msgs : List Msg) : ℚ :=
  if msgs = [] then 1
  else if negativeCount comp msgs = 0 then min (positiveCount comp msgs : ℚ) 99
  else (positiveCount comp msgs : ℚ) / (negativeCount comp msgs : ℚ)

/-! ### Layer 7 — digital mirroring (modelled from the spec) -/

/-- First-person-plural pronouns (§4.7). -/
def wePronouns : List String := ["we", "us", "our"]

/-- First-person-singular pronouns (§4.7). -/
def iPronouns : List String := ["i", "me", "my"]

/-- Number of occurrences of any of the given (lower-cased) words across
the whole conversation, splitting texts on spaces. -/
def countWords (ws : List String) (msgs : List Msg) : Nat :=
  (msgs.map (fun m =>
    ((m.text.toLower.splitOn " ").filter (fun w => w ∈ ws)).length)).sum

/-- Modelled from the spec: pronoun integration — the we/I ratio normalized
into `[0,1]` by the monotone bounded transform `r/(r+1)` (§4.7); the I-count
denominator is floored at `1` to avoid division by zero. -/
def pronounRat (msgs : List Msg) : ℚ :=
  (countWords wePronouns msgs : ℚ) / (max (countWords iPronouns msgs) 1 : ℚ)

/-- Modelled from the spec: pronoun integration — the we/I ratio normalized
into `[0,1]` by the monotone bounded transform `r/(r+1)` (§4.7). -/
def pronounScore (msgs : List Msg) : ℚ :=
  pronounRat msgs / (pronounRat msgs + 1)

/-- Modelled from the spec: composite mirroring
`0.4·emoji + 0.3·length + 0.3·pronoun` (§4.7). -/
def mirroringScore (msgs : List Msg) : ℚ :=
  4/10 * emojiReciprocity msgs + 3/10 * lengthDisparity msgs +
    3/10 * pronounScore msgs

/-! ### Layer 4 — relational entropy (modelled from the spec) -/

/-- The day bucket of a message: floor division of the timestamp by 86400
seconds (§4.4 fixed per-day intervals). -/
def dayOf (m : Msg) : Int := Int.fdiv m.timestamp 86400

/-- Modelled from the spec: the fixed per-day buckets spanning the whole
conversation (§4.4): every day between the earliest and the latest message
day, empty on the empty sequence. -/
def bucketDays (msgs : List Msg) : Finset Int :=
  match (msgs.map dayOf).min?, (msgs.map dayOf).max? with
  | some a, some b => Finset.Icc a b
  | _, _ => ∅

/-- Number of messages falling into one day bucket. -/
def bucketCount (msgs : List Msg) (d : Int) : Nat :=
  (msgs.filter (fun m => dayOf m = d)).length

/-- Total message count over the buckets. -/
def bucketTotal (msgs : List Msg) : Nat :=
  ∑ d ∈ bucketDays msgs, bucketCount msgs d

/-- Modelled from the spec: Shannon entropy `H = -Σ p log₂ p` of the
relative bucket frequencies, over nonzero buckets (`negMulLog 0 = 0` makes
the zero buckets contribute nothing) (§4.4). -/
noncomputable def entropyBits (msgs : List Msg) : ℝ :=
  (∑ d ∈ bucketDays msgs,
    Real.negMulLog ((bucketCount msgs d : ℝ) / (bucketTotal msgs : ℝ))) /
    Real.log 2

/-- Modelled from the spec: entropy normalized by `log₂ (number of
buckets)` to bound it into `[0,1]`; defined as `0` when at most one bucket
exists (§4.4). -/
noncomputable def entropyNorm (msgs : List Msg) : ℝ :=
  if (bucketDays msgs).card ≤ 1 then 0
  else entropyBits msgs / Real.logb 2 ((bucketDays msgs).card : ℝ)

/-! ### Layer 8 — KL divergence drift (modelled from the spec) -/

/-- The 5-bin histogram bin of a compound score, bins spanning `[-1,1]`
evenly (§4.8). -/
def binOf (c : ℚ) : Fin 5 :=
  if c < -(3/5) then 0
  else if c < -(1/5) then 1
  else if c < 1/5 then 2
  else if c < 3/5 then 3
  else 4

/-- Per-bin message count for one temporal half. -/
def binCount (comp : String → ℚ) (half : List Msg) (i : Fin 5) : Nat :=
  (half.filter (fun m => binOf (comp m.text) = i)).length

/-- The Laplace smoothing epsilon added to every bin (§4.8, "small
epsilon"). -/
def epsSmooth : ℚ := 1/100

/-- Modelled from the spec: the Laplace-smoothed probability a bin gets:
`(count + ε) / (total + 5ε)` — strictly positive, and summing to 1 over the
five bins (§4.8). -/
noncomputable def smoothProb (comp : String → ℚ) (half : List Msg) (i : Fin 5) : ℝ :=
  ((binCount comp half i : ℝ) + (epsSmooth : ℝ)) /
    ((∑ j, (binCount comp half j : ℝ)) + 5 * (epsSmooth : ℝ))

/-- Modelled from the spec: `D_KL(P ‖ Q) = Σ P(x)·log(P(x)/Q(x))` between
the smoothed sentiment distributions of the first (baseline `P`) and second
(recent `Q`) temporal halves (§4.8). -/
noncomputable def klDrift (comp : String → ℚ) (msgs : List Msg) : ℝ :=
  ∑ i, smoothProb comp (firstHalf msgs) i *
    Real.log (smoothProb comp (firstHalf msgs) i / smoothProb comp (secondHalf msgs) i)

/-! ### Layer 3 — structured LLM judgment (modelled from the spec)

The generative collaborator is injected as an `Option JudgeResp`: `none`
models a failed or unavailable call, `some` a returned JSON object which is
still validated against the schema bounds. -/

/-- A parsed generative response: `heat`/`decay` claimed in `[0,10]` plus
the dominant emotion. -/
structure JudgeResp where
  heat : ℚ
  decay : ℚ
  emotion : String
deriving DecidableEq

/-- Schema validation of a generative response: both scores in `[0,10]`. -/
def validResp (j : JudgeResp) : Bool :=
  decide (0 ≤ j.heat ∧ j.heat ≤ 10 ∧ 0 ≤ j.decay ∧ j.decay ≤ 10)

/-- Modelled from the spec: the deterministic heat fallback when the
generative call fails — a scaled negative-sentiment-and-frequency-imbalance
composite from Layers 1–2, clipped into `[0,10]` (§4.3). -/
def fallbackHeat (comp : String → ℚ) (msgs : List Msg) : ℚ :=
  clamp010 (5 - 5 * avgCompound comp msgs + 5 * oneWordFrac msgs)

/-- Modelled from the spec: the deterministic decay fallback from Layer 2,
clipped into `[0,10]` (§4.3). -/
def fallbackDecay (msgs : List Msg) : ℚ :=
  clamp010 (10 * oneWordFrac msgs)

/-- Layer-3 heat: the validated generative score, else the fallback. -/
def llmHeat (judge : Option JudgeResp) (comp : String → ℚ) (msgs : List Msg) : ℚ :=
  match judge with
  | some j => if validResp j then j.heat else fallbackHeat comp msgs
  | none => fallbackHeat comp msgs

/-- Layer-3 decay: the validated generative score, else the fallback. -/
def llmDecay (judge : Option JudgeResp) (_comp : String → ℚ) (msgs : List Msg) : ℚ :=
  match judge with
  | some j => if validResp j then j.decay else fallbackDecay msgs
  | none => fallbackDecay msgs

/-- Layer-3 dominant emotion, `"neutral"` in fallback mode. -/
def llmEmotion (judge : Option JudgeResp) : String :=
  match judge with
  | some j => if validResp j then j.emotion else "neutral"
  | none => "neutral"

/-- The degraded-mode flag (§7): set whenever the generative layer failed
or returned schema-invalid output. -/
def llmDegraded (judge : Option JudgeResp) : Bool :=
  match judge with
  | some j => ! validResp j
  | none => true

/-! ### Composite scorer (modelled from the spec)

Per §4.9 each layer publishes a heat contribution and a decay contribution
(possibly zero for the axis a layer is irrelevant to); the mapping of raw
sub-scores into `[0,10]` polarity contributions is the explicit documented
design choice §9 calls for.  Heat and Decay are the weighted sums, clipped
into `[0,10]`. -/

/-- Heat contribution of Layer 1: high when average sentiment is
negative. -/
def vaderHeatC (comp : String → ℚ) (msgs : List Msg) : ℚ :=
  clamp010 (5 - 5 * avgCompound comp msgs)

/-- Decay contribution of Layer 1: high when the sentiment trajectory falls
off. -/
def vaderDecayC (comp : String → ℚ) (msgs : List Msg) : ℚ :=
  clamp010 (-10 * trajectory comp msgs)

/-- Heat contribution of Layer 2: the one-word-reply
(passive-aggression) fraction, scaled. -/
def freqHeatC (msgs : List Msg) : ℚ :=
  clamp010 (10 * oneWordFrac msgs)

/-- Decay contribution of Layer 2: imbalance of the message-count ratio,
scaled (`0` at perfect balance `ratio = 1`). -/
def freqDecayC (msgs : List Msg) : ℚ :=
  clamp010 (10 * |countRat msgs - 1| / (countRat msgs + 1))

/-- Decay contribution of Layer 5: low composite effort means
disengagement; the Gottman layer contributes to the heat axis only and
Layer 5 to the decay axis only. -/
def effortDecayC (msgs : List Msg) : ℚ :=
  clamp010 (10 * (1 - effortScore msgs))

/-- Heat contribution of Layer 6: distance of the Gottman ratio below the
healthy 5:1 baseline, scaled. -/
def gottmanHeatC (comp : String → ℚ) (msgs : List Msg) : ℚ :=
  clamp010 (10 - 2 * gottmanRat comp msgs)

/-- Decay contribution of Layer 4: cadence irregularity, scaled. -/
noncomputable def entropyDecayC (msgs : List Msg) : ℝ :=
  clamp010R (10 * entropyNorm msgs)

/-- Decay contribution of Layer 7: lack of digital mirroring, scaled. -/
def mirroringDecayC (msgs : List Msg) : ℚ :=
  clamp010 (10 * (1 - mirroringScore msgs))

/-- Decay contribution of Layer 8: distributional sentiment drift,
scaled. -/
noncomputable def klDecayC (comp : String → ℚ) (msgs : List Msg) : ℝ :=
  clamp010R (10 * klDrift comp msgs)

/-- Modelled from the spec: composite Heat — the §4.9 weighted sum of the
layers' heat contributions (zero for the layers irrelevant to the heat
axis), clipped into `[0,10]`. -/
noncomputable def heatScore (judge : Option JudgeResp) (comp : String → ℚ)
    (msgs : List Msg) : ℝ :=
  clamp010R ((wVader : ℝ) * (vaderHeatC comp msgs : ℝ) +
    (wFreq : ℝ) * (freqHeatC msgs : ℝ) +
    (wLlm : ℝ) * (llmHeat judge comp msgs : ℝ) +
    (wEffort : ℝ) * 0 +
    (wGottman : ℝ) * (gottmanHeatC comp msgs : ℝ) +
    (wEntropy : ℝ) * 0 +
    (wMirroring : ℝ) * 0 +
    (wKl : ℝ) * 0)

/-- Modelled from the spec: composite Decay — the §4.9 weighted sum of the
layers' decay contributions (zero for the layers irrelevant to the decay
axis), clipped into `[0,10]`. -/
noncomputable def decayScore (judge : Option JudgeResp) (comp : String → ℚ)
    (msgs : List Msg) : ℝ :=
  clamp010R ((wVader : ℝ) * (vaderDecayC comp msgs : ℝ) +
    (wFreq : ℝ) * (freqDecayC msgs : ℝ) +
    (wLlm : ℝ) * (llmDecay judge comp msgs : ℝ) +
    (wEffort : ℝ) * (effortDecayC msgs : ℝ) +
    (wGottman : ℝ) * 0 +
    (wEntropy : ℝ) * entropyDecayC msgs +
    (wMirroring : ℝ) * (mirroringDecayC msgs : ℝ) +
    (wKl : ℝ) * klDecayC comp msgs)

/-! ### Message generator and pipeline entry point (modelled from the
spec) -/

/-- Modelled from the spec: the hand-authored fallback templates,
parameterized by route and dominant emotion — never empty (§4.13). -/
def templates (n : Node) (emotion : String) : List String :=
  match n with
  | .conflict_resolve =>
    ["Hey, I keep thinking about our last conversation and the " ++ emotion ++
      " in it. Can we talk it through?",
     "I do not want this to sit between us. When is a good time to talk?",
     "I care about us more than about being right. Can we start over?"]
  | _ =>
    ["Hey stranger, it has been a while! How have you been?",
     "I saw something today that reminded me of you.",
     "Miss our chats. Coffee soon?"]

/-- Modelled from the spec: drafts for the chosen route — `ghost_write`
runs only after `conflict_resolve` or `re_engage`; an empty or failed
generative draft call falls back to the templates (§4.13). -/
def draftsFor (draftCall : Option (List String)) (n : Node) (emotion : String) :
    List String :=
  match n with
  | .log_memory => []
  | _ =>
    match draftCall with
    | some l => if l = [] then templates n emotion else l
    | none => templates n emotion

/-- The full result of one pipeline run. -/
structure AnalysisResult where
  heat : ℝ
  decay : ℝ
  emotion : String
  gstatus : String
  effort : ℚ
  degraded : Bool
  node : Node
  route : Route
  drafts : List String

/-- Modelled from the spec: the sole externally callable operation
`analyze` (§6): the 8-layer fan-out, the composite scorer, the deterministic
router, and the conditional drafting step.  The two external generative
capabilities are injected (`judge` for Layer 3, `draftCall` for the ghost
writer); the routing decision is computed before and independently of
`draftCall`. -/
noncomputable def analyze (judge : Option JudgeResp) (draftCall : Option (List String))
    (comp : String → ℚ) (msgs : List Msg) : AnalysisResult :=
  let heat := heatScore judge comp msgs
  let decay := decayScore judge comp msgs
  let gs := gottmanStatus (gottmanRat comp msgs)
  let eff := effortScore msgs
  let node := routeNode heat decay gs eff
  { heat := heat
    decay := decay
    emotion := llmEmotion judge
    gstatus := gs
    effort := eff
    degraded := llmDegraded judge
    node := node
    route := node.toRoute
    drafts := draftsFor draftCall node (llmEmotion judge) }

/-! ### Dashboard health score (from `dashboard/page.tsx`) -/

/-- The health score shown by the upload-result modal:
`100 - (heat_score*5 + decay_score*5)` (dashboard page, `UploadModal`
`selectedAnalysis` effect). -/
def healthScoreModal (heat decay : ℚ) : ℚ :=
  100 - (heat * 5 + decay * 5)

/-- The health score shown in the relationship-priority list:
`100 - (a.heat_score*5 + a.decay_score*5)` (dashboard page, priority-list
row). -/
def healthScorePriority (heat decay : ℚ) : ℚ :=
  100 - (heat * 5 + decay * 5)

/-! ### WhatsApp bridge (from `whatsapp-bridge/index.js`) -/

/-- The structured wire record the bridge builds for each captured message. -/
structure WireMsg where
  timestamp : String
  sender : String
  message : String
  source : String
  chat_name : String
  is_group : Bool
deriving DecidableEq

/-- The bridge's mutable state: the message buffer and the `isProcessing`
flag. -/
structure BridgeState where
  buffer : List WireMsg
  isProcessing : Bool
deriving DecidableEq

/-- `BATCH_SIZE` from the bridge: send to backend every N messages. -/
def BATCH_SIZE : Nat := 10

/-- `BATCH_INTERVAL_MS` from the bridge: or every 30 seconds. -/
def BATCH_INTERVAL_MS : Nat := 30000

/-- The `message_create` handler: status updates and media-only (empty-body)
messages are skipped; otherwise the structured record is pushed onto the
buffer, and a flush is triggered exactly when the buffer has reached
`BATCH_SIZE`.  Returns the new state and whether `flushBuffer` is invoked. -/
def handleMessageCreate (isStatus : Bool) (m : WireMsg) (st : BridgeState) :
    BridgeState × Bool :=
  if isStatus ∨ m.message = "" then (st, false)
  else
    let st' : BridgeState := { st with buffer := st.buffer ++ [m] }
    (st', decide (BATCH_SIZE ≤ st'.buffer.length))

/-- `flushBuffer` from the bridge.  The guard returns immediately when a
flush is already in flight or the buffer is empty.  Otherwise the whole
buffer is captured as `batch` and the buffer is cleared; messages arriving
while the POST is awaited (`arrivals`) are appended to the (now empty)
buffer; if the POST fails, the failed batch is re-queued in front of them
(`messageBuffer = [...batch, ...messageBuffer]`). -/
def flushBuffer (postOk : Bool) (arrivals : List WireMsg) (st : BridgeState) :
    BridgeState :=
  if st.isProcessing ∨ st.buffer = [] then st
  else
    let batch := st.buffer
    if postOk then { buffer := arrivals, isProcessing := false }
    else { buffer := batch ++ arrivals, isProcessing := false }

/-! ## Helper lemmas -/

theorem clamp010_nonneg (x : ℚ) : 0 ≤ clamp010 x := le_max_left 0 _

theorem clamp010_le_ten (x : ℚ) : clamp010 x ≤ 10 :=
  max_le (by norm_num) (min_le_left 10 x)

theorem clamp010R_nonneg (x : ℝ) : 0 ≤ clamp010R x := le_max_left 0 _

theorem clamp010R_le_ten (x : ℝ) : clamp010R x ≤ 10 :=
  max_le (by norm_num) (min_le_left 10 x)

theorem ratAvg_bounds {a b : ℚ} (l : List ℚ) (ha : a ≤ 0) (hb : 0 ≤ b)
    (h : ∀ x ∈ l, a ≤ x ∧ x ≤ b) : a ≤ ratAvg l ∧ ratAvg l ≤ b := by
  unfold ratAvg
  split_ifs with hl
  · exact ⟨ha, hb⟩
  · have hlen : 0 < (l.length : ℚ) := by
      have := List.length_pos.mpr hl
      exact_mod_cast this
    have hsum_ub : l.sum ≤ (l.length : ℚ) * b := by
      have := List.sum_le_card_nsmul l b (fun x hx => (h x hx).2)
      simpa [nsmul_eq_mul] using this
    have hsum_lb : (l.length : ℚ) * a ≤ l.sum := by
      have := List.card_nsmul_le_sum l a (fun x hx => (h x hx).1)
      simpa [nsmul_eq_mul] using this
    constructor
    · rw [le_div_iff₀ hlen]
      linarith
    · rw [div_le_iff₀ hlen]
      linarith

theorem ratAvg_nonneg (l : List ℚ) (h : ∀ x ∈ l, 0 ≤ x) : 0 ≤ ratAvg l := by
  unfold ratAvg
  split_ifs with hl
  · exact le_rfl
  · have hlen : (0 : ℚ) ≤ (l.length : ℚ) := by positivity
    exact div_nonneg (List.sum_nonneg h) hlen

theorem avgLen_nonneg (msgs : List Msg) : 0 ≤ avgLen msgs := by
  refine ratAvg_nonneg _ ?_
  intro x hx
  simp only [List.mem_map] at hx
  obtain ⟨m, _, rfl⟩ := hx
  simp [msgLen]

theorem negMulLog_sub_le {n : ℝ} (hn : 0 < n) {p : ℝ} (hp : 0 ≤ p) :
    Real.negMulLog p - p * Real.log n ≤ 1/n - p := by
  rcases eq_or_lt_of_le hp with h | h
  · rw [← h]
    simp only [Real.negMulLog_zero, zero_mul, sub_zero, sub_self]
    positivity
  · have h1 : Real.negMulLog p - p * Real.log n = p * Real.log (p * n)⁻¹ := by
      rw [Real.negMulLog, Real.log_inv, Real.log_mul (ne_of_gt h) (ne_of_gt hn)]
      ring
    rw [h1]
    have h2 : Real.log (p * n)⁻¹ ≤ (p * n)⁻¹ - 1 :=
      Real.log_le_sub_one_of_pos (by positivity)
    have h3 : p * ((p * n)⁻¹ - 1) = 1/n - p := by
      field_simp
      ring
    calc p * Real.log (p * n)⁻¹ ≤ p * ((p * n)⁻¹ - 1) :=
          mul_le_mul_of_nonneg_left h2 hp
      _ = 1/n - p := h3

theorem sum_negMulLog_le {α : Type} (s : Finset α) (p : α → ℝ)
    (hp : ∀ a ∈ s, 0 ≤ p a) (hsum : ∑ a ∈ s, p a = 1) :
    ∑ a ∈ s, Real.negMulLog (p a) ≤ Real.log s.card := by
  have hne : s.Nonempty := by
    by_contra h
    rw [Finset.not_nonempty_iff_eq_empty] at h
    subst h
    simp at hsum
  have hn : (0 : ℝ) < (s.card : ℝ) := by
    exact_mod_cast Finset.card_pos.mpr hne
  have h1 : ∑ a ∈ s, (Real.negMulLog (p a) - p a * Real.log s.card) ≤
      ∑ a ∈ s, (1/(s.card : ℝ) - p a) :=
    Finset.sum_le_sum (fun a ha => negMulLog_sub_le hn (hp a ha))
  have h2 : ∑ a ∈ s, (Real.negMulLog (p a) - p a * Real.log s.card) =
      (∑ a ∈ s, Real.negMulLog (p a)) - Real.log s.card := by
    rw [Finset.sum_sub_distrib, ← Finset.sum_mul, hsum, one_mul]
  have h3 : ∑ a ∈ s, (1/(s.card : ℝ) - p a) = 0 := by
    rw [Finset.sum_sub_distrib, hsum, Finset.sum_const, nsmul_eq_mul]
    field_simp
  linarith

theorem kl_sum_nonneg {α : Type} (s : Finset α) (P Q : α → ℝ)
    (hP : ∀ a ∈ s, 0 < P a) (hQ : ∀ a ∈ s, 0 < Q a)
    (hPs : ∑ a ∈ s, P a = 1) (hQs : ∑ a ∈ s, Q a = 1) :
    0 ≤ ∑ a ∈ s, P a * Real.log (P a / Q a) := by
  have key : ∀ a ∈ s, P a - Q a ≤ P a * Real.log (P a / Q a) := by
    intro a ha
    have hPa := hP a ha
    have hQa := hQ a ha
    have h1 : Real.log (Q a / P a) ≤ Q a / P a - 1 :=
      Real.log_le_sub_one_of_pos (div_pos hQa hPa)
    have h2 : Real.log (P a / Q a) = - Real.log (Q a / P a) := by
      rw [← Real.log_inv, inv_div]
    have h3 : P a * Real.log (Q a / P a) ≤ P a * (Q a / P a - 1) :=
      mul_le_mul_of_nonneg_left h1 hPa.le
    have h4 : P a * (Q a / P a - 1) = Q a - P a := by
      field_simp
    rw [h2]
    linarith
  have h5 : ∑ a ∈ s, (P a - Q a) ≤ ∑ a ∈ s, P a * Real.log (P a / Q a) :=
    Finset.sum_le_sum key
  have h6 : ∑ a ∈ s, (P a - Q a) = 0 := by
    rw [Finset.sum_sub_distrib, hPs, hQs, sub_self]
  linarith

theorem smoothProb_pos (comp : String → ℚ) (half : List Msg) (i : Fin 5) :
    0 < smoothProb comp half i := by
  unfold smoothProb
  have he : (0 : ℝ) < (epsSmooth : ℝ) := by
    norm_num [epsSmooth]
  apply div_pos
  · positivity
  · have hs : (0 : ℝ) ≤ ∑ j, (binCount comp half j : ℝ) :=
      Finset.sum_nonneg (fun j _ => by positivity)
    linarith

theorem smoothProb_sum (comp : String → ℚ) (half : List Msg) :
    ∑ i, smoothProb comp half i = 1 := by
  unfold smoothProb
  rw [← Finset.sum_div]
  have h1 : ∑ i, ((binCount comp half i : ℝ) + (epsSmooth : ℝ)) =
      (∑ i, (binCount comp half i : ℝ)) + 5 * (epsSmooth : ℝ) := by
    rw [Finset.sum_add_distrib, Finset.sum_const, Finset.card_univ,
      Fintype.card_fin, nsmul_eq_mul]
    norm_num
  rw [h1]
  apply div_self
  have he : (0 : ℝ) < (epsSmooth : ℝ) := by
    norm_num [epsSmooth]
  have hs : (0 : ℝ) ≤ ∑ j, (binCount comp half j : ℝ) :=
    Finset.sum_nonneg (fun j _ => by positivity)
  positivity

theorem klDrift_nonneg (comp : String → ℚ) (msgs : List Msg) :
    0 ≤ klDrift comp msgs := by
  unfold klDrift
  exact kl_sum_nonneg Finset.univ _ _
    (fun i _ => smoothProb_pos comp (firstHalf msgs) i)
    (fun i _ => smoothProb_pos comp (secondHalf msgs) i)
    (smoothProb_sum comp (firstHalf msgs))
    (smoothProb_sum comp (secondHalf msgs))

theorem entropyNorm_bounds (msgs : List Msg) :
    0 ≤ entropyNorm msgs ∧ entropyNorm msgs ≤ 1 := by
  unfold entropyNorm
  split_ifs with hcard
  · norm_num
  · push_neg at hcard
    have hn1 : (1 : ℝ) < ((bucketDays msgs).card : ℝ) := by
      exact_mod_cast hcard
    have hlogn : 0 < Real.log ((bucketDays msgs).card : ℝ) := Real.log_pos hn1
    have hlog2 : 0 < Real.log 2 := Real.log_pos (by norm_num)
    set S : ℝ := ∑ d ∈ bucketDays msgs,
      Real.negMulLog ((bucketCount msgs d : ℝ) / (bucketTotal msgs : ℝ)) with hS
    have hred : entropyBits msgs / Real.logb 2 ((bucketDays msgs).card : ℝ) =
        S / Real.log ((bucketDays msgs).card : ℝ) := by
      rw [entropyBits, Real.logb, ← hS]
      field_simp
    rw [hred]
    rcases Nat.eq_zero_or_pos (bucketTotal msgs) with hT | hT
    · have hzero : S = 0 := by
        rw [hS]
        apply Finset.sum_eq_zero
        intro d _
        rw [hT]
        simp
      rw [hzero]
      simp
    · have hTpos : (0 : ℝ) < (bucketTotal msgs : ℝ) := by
        exact_mod_cast hT
      have hple : ∀ d ∈ bucketDays msgs,
          (bucketCount msgs d : ℝ) / (bucketTotal msgs : ℝ) ≤ 1 := by
        intro d hd
        rw [div_le_one hTpos]
        have : bucketCount msgs d ≤ bucketTotal msgs :=
          Finset.single_le_sum (f := fun d => bucketCount msgs d)
            (fun i _ => Nat.zero_le _) hd
        exact_mod_cast this
      have hpnn : ∀ d ∈ bucketDays msgs,
          (0 : ℝ) ≤ (bucketCount msgs d : ℝ) / (bucketTotal msgs : ℝ) := by
        intro d _
        positivity
      have hsum1 : ∑ d ∈ bucketDays msgs,
          (bucketCount msgs d : ℝ) / (bucketTotal msgs : ℝ) = 1 := by
        rw [← Finset.sum_div]
        rw [show ∑ d ∈ bucketDays msgs, (bucketCount msgs d : ℝ) =
          (bucketTotal msgs : ℝ) by exact_mod_cast (Nat.cast_sum _ _).symm]
        exact div_self hTpos.ne'
      have hS0 : 0 ≤ S := by
        rw [hS]
        exact Finset.sum_nonneg (fun d hd =>
          Real.negMulLog_nonneg (hpnn d hd) (hple d hd))
      have hSle : S ≤ Real.log ((bucketDays msgs).card : ℝ) := by
        rw [hS]
        exact sum_negMulLog_le _ _ hpnn hsum1
      exact ⟨div_nonneg hS0 hlogn.le, (div_le_one hlogn).mpr hSle⟩

theorem senderAvgCompound_bounds (comp : String → ℚ) (s : Bool) (msgs : List Msg)
    (hcomp : ∀ t, -1 ≤ comp t ∧ comp t ≤ 1) :
    -1 ≤ senderAvgCompound comp s msgs ∧ senderAvgCompound comp s msgs ≤ 1 := by
  unfold senderAvgCompound avgCompound
  refine ratAvg_bounds _ (by norm_num) (by norm_num) ?_
  intro x hx
  simp only [List.mem_map] at hx
  obtain ⟨m, _, rfl⟩ := hx
  exact hcomp m.text

theorem avgCompound_bounds (comp : String → ℚ) (msgs : List Msg)
    (hcomp : ∀ t, -1 ≤ comp t ∧ comp t ≤ 1) :
    -1 ≤ avgCompound comp msgs ∧ avgCompound comp msgs ≤ 1 := by
  unfold avgCompound
  refine ratAvg_bounds _ (by norm_num) (by norm_num) ?_
  intro x hx
  simp only [List.mem_map] at hx
  obtain ⟨m, _, rfl⟩ := hx
  exact hcomp m.text

theorem oneWordFrac_bounds (msgs : List Msg) :
    0 ≤ oneWordFrac msgs ∧ oneWordFrac msgs ≤ 1 := by
  unfold oneWordFrac
  split_ifs with h
  · norm_num
  · have hlen : (0 : ℚ) < (msgs.length : ℚ) := by
      exact_mod_cast List.length_pos.mpr h
    constructor
    · positivity
    · rw [div_le_one hlen]
      exact_mod_cast List.length_filter_le _ msgs

theorem msgEmojiFrac_bounds (m : Msg) : 0 ≤ msgEmojiFrac m ∧ msgEmojiFrac m ≤ 1 := by
  unfold msgEmojiFrac
  split_ifs with h
  · norm_num
  · have hlen : (0 : ℚ) < (m.text.toList.length : ℚ) := by
      exact_mod_cast List.length_pos.mpr h
    constructor
    · positivity
    · rw [div_le_one hlen]
      exact_mod_cast List.length_filter_le _ m.text.toList

theorem emojiDensity_bounds (msgs : List Msg) :
    0 ≤ emojiDensity msgs ∧ emojiDensity msgs ≤ 1 := by
  unfold emojiDensity
  refine ratAvg_bounds _ (by norm_num) (by norm_num) ?_
  intro x hx
  simp only [List.mem_map] at hx
  obtain ⟨m, _, rfl⟩ := hx
  exact msgEmojiFrac_bounds m

theorem llmHeat_bounds (judge : Option JudgeResp) (comp : String → ℚ) (msgs : List Msg) :
    0 ≤ llmHeat judge comp msgs ∧ llmHeat judge comp msgs ≤ 10 := by
  cases judge with
  | none => exact ⟨clamp010_nonneg _, clamp010_le_ten _⟩
  | some j =>
    simp only [llmHeat]
    split_ifs with h
    · have hj := of_decide_eq_true h
      exact ⟨hj.1, hj.2.1⟩
    · exact ⟨clamp010_nonneg _, clamp010_le_ten _⟩

theorem llmDecay_bounds (judge : Option JudgeResp) (comp : String → ℚ) (msgs : List Msg) :
    0 ≤ llmDecay judge comp msgs ∧ llmDecay judge comp msgs ≤ 10 := by
  cases judge with
  | none => exact ⟨clamp010_nonneg _, clamp010_le_ten _⟩
  | some j =>
    simp only [llmDecay]
    split_ifs with h
    · have hj := of_decide_eq_true h
      exact ⟨hj.2.2.1, hj.2.2.2⟩
    · exact ⟨clamp010_nonneg _, clamp010_le_ten _⟩

theorem initRat_bounds (msgs : List Msg) : 0 ≤ initRat msgs ∧ initRat msgs ≤ 1 := by
  unfold initRat
  split_ifs with h
  · norm_num
  · have hlen : (0 : ℚ) < ((restarts msgs).length : ℚ) := by
      exact_mod_cast List.length_pos.mpr h
    constructor
    · positivity
    · rw [div_le_one hlen]
      exact_mod_cast List.length_filter_le _ (restarts msgs)

theorem initNorm_bounds (msgs : List Msg) : 0 ≤ initNorm msgs ∧ initNorm msgs ≤ 1 := by
  obtain ⟨h0, h1⟩ := initRat_bounds msgs
  unfold initNorm
  have habs : |initRat msgs - 1/2| ≤ 1/2 := abs_le.mpr ⟨by linarith, by linarith⟩
  have habs0 : 0 ≤ |initRat msgs - 1/2| := abs_nonneg _
  constructor
  · linarith
  · linarith

theorem countQA_le (s : Bool) (l : List Msg) : (countQA s l).2 ≤ (countQA s l).1 := by
  induction l with
  | nil => simp [countQA]
  | cons m rest ih =>
    rw [countQA]
    split_ifs with h ha
    · dsimp only
      omega
    · dsimp only
      omega
    · exact ih

theorem questionRecipOne_bounds (s : Bool) (msgs : List Msg) :
    0 ≤ questionRecipOne s msgs ∧ questionRecipOne s msgs ≤ 1 := by
  unfold questionRecipOne
  split_ifs with h
  · norm_num
  · have hlen : (0 : ℚ) < ((countQA s msgs).1 : ℚ) := by
      have := Nat.pos_of_ne_zero h
      exact_mod_cast this
    constructor
    · positivity
    · rw [div_le_one hlen]
      exact_mod_cast countQA_le s msgs

theorem questionRecip_bounds (msgs : List Msg) :
    0 ≤ questionRecip msgs ∧ questionRecip msgs ≤ 1 := by
  obtain ⟨ha0, ha1⟩ := questionRecipOne_bounds true msgs
  obtain ⟨hb0, hb1⟩ := questionRecipOne_bounds false msgs
  unfold questionRecip
  constructor
  · linarith
  · linarith

theorem lengthDisparity_bounds (msgs : List Msg) :
    0 ≤ lengthDisparity msgs ∧ lengthDisparity msgs ≤ 1 := by
  unfold lengthDisparity
  have ha := avgLen_nonneg (senderMsgs true msgs)
  have hb := avgLen_nonneg (senderMsgs false msgs)
  set a := avgLen (senderMsgs true msgs)
  set b := avgLen (senderMsgs false msgs)
  split_ifs with h
  · norm_num
  · have hmax : 0 < max a b := by
      rcases not_and_or.mp h with h | h
      · exact lt_max_of_lt_left (lt_of_le_of_ne ha (Ne.symm h))
      · exact lt_max_of_lt_right (lt_of_le_of_ne hb (Ne.symm h))
    have habs : |a - b| ≤ max a b := by
      rcases le_total a b with hle | hle
      · rw [abs_of_nonpos (by linarith), max_eq_right hle]
        linarith
      · rw [abs_of_nonneg (by linarith), max_eq_left hle]
        linarith
    have hdiv1 : |a - b| / max a b ≤ 1 := (div_le_one hmax).mpr habs
    have hdiv0 : 0 ≤ |a - b| / max a b := div_nonneg (abs_nonneg _) hmax.le
    constructor
    · linarith
    · linarith

theorem effortScore_bounds (msgs : List Msg) :
    0 ≤ effortScore msgs ∧ effortScore msgs ≤ 1 := by
  obtain ⟨hi0, hi1⟩ := initNorm_bounds msgs
  obtain ⟨hq0, hq1⟩ := questionRecip_bounds msgs
  obtain ⟨hl0, hl1⟩ := lengthDisparity_bounds msgs
  unfold effortScore
  constructor
  · linarith
  · linarith

theorem dice_bounds (A B : Finset Char) : 0 ≤ dice A B ∧ dice A B ≤ 1 := by
  unfold dice
  split_ifs with h
  · norm_num
  · have hcardA : (0 : ℚ) ≤ (A.card : ℚ) := by positivity
    have hcardB : (0 : ℚ) ≤ (B.card : ℚ) := by positivity
    have hd : 0 < (A.card : ℚ) + (B.card : ℚ) := by
      rcases not_and_or.mp h with h | h
      · have : 0 < A.card := Finset.card_pos.mpr (Finset.nonempty_iff_ne_empty.mpr h)
        have : (0 : ℚ) < (A.card : ℚ) := by exact_mod_cast this
        linarith
      · have : 0 < B.card := Finset.card_pos.mpr (Finset.nonempty_iff_ne_empty.mpr h)
        have : (0 : ℚ) < (B.card : ℚ) := by exact_mod_cast this
        linarith
    have hnum : (2 * (A ∩ B).card : ℚ) ≤ (A.card : ℚ) + (B.card : ℚ) := by
      have h1 : (A ∩ B).card ≤ A.card := Finset.card_le_card Finset.inter_subset_left
      have h2 : (A ∩ B).card ≤ B.card := Finset.card_le_card Finset.inter_subset_right
      have h1' : ((A ∩ B).card : ℚ) ≤ (A.card : ℚ) := by exact_mod_cast h1
      have h2' : ((A ∩ B).card : ℚ) ≤ (B.card : ℚ) := by exact_mod_cast h2
      linarith
    constructor
    · positivity
    · rw [div_le_one hd]
      exact hnum

theorem pronounScore_bounds (msgs : List Msg) :
    0 ≤ pronounScore msgs ∧ pronounScore msgs ≤ 1 := by
  unfold pronounScore
  have hr : (0 : ℚ) ≤ pronounRat msgs := by
    unfold pronounRat
    apply div_nonneg
    · positivity
    · positivity
  constructor
  · apply div_nonneg hr
    linarith
  · rw [div_le_one (by linarith)]
    linarith

theorem mirroringScore_bounds (msgs : List Msg) :
    0 ≤ mirroringScore msgs ∧ mirroringScore msgs ≤ 1 := by
  obtain ⟨he0, he1⟩ := dice_bounds (emojiSet true msgs) (emojiSet false msgs)
  obtain ⟨hl0, hl1⟩ := lengthDisparity_bounds msgs
  obtain ⟨hp0, hp1⟩ := pronounScore_bounds msgs
  unfold mirroringScore emojiReciprocity
  constructor
  · linarith
  · linarith

theorem gottmanRat_nonneg (comp : String → ℚ) (msgs : List Msg) :
    0 ≤ gottmanRat comp msgs := by
  unfold gottmanRat
  split_ifs with h1 h2
  · norm_num
  · exact le_min (by positivity) (by norm_num)
  · positivity

theorem heatScore_bounds (judge : Option JudgeResp) (comp : String → ℚ)
    (msgs : List Msg) : 0 ≤ heatScore judge comp msgs ∧ heatScore judge comp msgs ≤ 10 :=
  ⟨clamp010R_nonneg _, clamp010R_le_ten _⟩

theorem decayScore_bounds (judge : Option JudgeResp) (comp : String → ℚ)
    (msgs : List Msg) : 0 ≤ decayScore judge comp msgs ∧ decayScore judge comp msgs ≤ 10 :=
  ⟨clamp010R_nonneg _, clamp010R_le_ten _⟩

/-! ## Claim theorems -/

/-- C1: the router evaluates its rules in priority order with first match
winning — whenever `Heat ≥ 6` or the Gottman status is `"Critical"`, the
chosen route is `conflict_resolve`, for every value of `Decay` and of the
effort composite (so in particular when `Decay ≥ 6` would also match rule
2). -/
theorem c1_router_priority (heat decay : ℝ) (gstatus : String) (effort : ℚ)
    (h : 6 ≤ heat ∨ gstatus = "Critical") :
    routeNode heat decay gstatus effort = Node.conflict_resolve := by
  simp only [routeNode, if_pos h]

/-- Witness for C1 at the engineered point `Heat = 7`, `Decay = 8` of the
spec: rule 1 precedes rule 2. -/
theorem c1_router_priority_witness :
    ((6 : ℝ) ≤ 7 ∨ "At Risk" = "Critical") ∧
      routeNode 7 8 "At Risk" (1/2) = Node.conflict_resolve :=
  ⟨Or.inl (by norm_num),
    c1_router_priority 7 8 "At Risk" (1/2) (Or.inl (by norm_num))⟩

/-- C2: the Gottman status is a step function of the positive-to-negative
ratio with exact threshold boundaries: `ratio ≥ 5 → "Thriving"`,
`5 > ratio ≥ 3 → "Stable"`, `3 > ratio ≥ 1 → "At Risk"`,
`ratio < 1 → "Critical"`; in particular exactly `5.0` is `"Thriving"`,
`4.999` is `"Stable"`, `2.999` is `"At Risk"` and `0.999` is
`"Critical"`. -/
theorem c2_gottman_thresholds :
    (∀ r : ℚ, (5 ≤ r → gottmanStatus r = "Thriving") ∧
      (3 ≤ r → r < 5 → gottmanStatus r = "Stable") ∧
      (1 ≤ r → r < 3 → gottmanStatus r = "At Risk") ∧
      (r < 1 → gottmanStatus r = "Critical")) ∧
    gottmanStatus 5 = "Thriving" ∧ gottmanStatus (4999/1000) = "Stable" ∧
    gottmanStatus (2999/1000) = "At Risk" ∧ gottmanStatus (999/1000) = "Critical" := by
  refine ⟨fun r => ⟨fun h5 => ?_, fun h3 h5 => ?_, fun h1 h3 => ?_, fun h1 => ?_⟩,
    ?_, ?_, ?_, ?_⟩
  · simp only [gottmanStatus, if_pos h5]
  · simp only [gottmanStatus]
    rw [if_neg (by linarith), if_pos h3]
  · simp only [gottmanStatus]
    rw [if_neg (by linarith), if_neg (by linarith), if_pos h1]
  · simp only [gottmanStatus]
    rw [if_neg (by linarith), if_neg (by linarith), if_neg (by linarith)]
  · simp only [gottmanStatus]
    norm_num
  · simp only [gottmanStatus]
    norm_num
  · simp only [gottmanStatus]
    norm_num
  · simp only [gottmanStatus]
    norm_num

/-- Witness for C2: the step function evaluated through the theorem at the
boundary ratio `5`. -/
theorem c2_gottman_thresholds_witness :
    (5 : ℚ) ≤ 5 ∧ gottmanStatus 5 = "Thriving" :=
  ⟨le_refl 5, (c2_gottman_thresholds.1 5).1 (le_refl 5)⟩

/-- C3: for every message sequence (including the empty and degenerate
ones) and every bounded sentiment lexicon, each layer's score lies within
its documented bounded range — per-sender average compound in `[-1,1]`,
the Layer-2 one-word-reply fraction and emoji density in `[0,1]`, the
(validated or fallback) Layer-3 scores in `[0,10]`, normalized entropy in
`[0,1]`, composite effort in `[0,1]`, Gottman ratio non-negative, mirroring
in `[0,1]`, KL divergence non-negative — and the composite Heat and Decay
lie in the closed interval `[0,10]`. -/
theorem c3_layer_bounds (judge : Option JudgeResp) (comp : String → ℚ)
    (msgs : List Msg) (hcomp : ∀ t, -1 ≤ comp t ∧ comp t ≤ 1) :
    (-1 ≤ senderAvgCompound comp true msgs ∧ senderAvgCompound comp true msgs ≤ 1) ∧
    (-1 ≤ senderAvgCompound comp false msgs ∧ senderAvgCompound comp false msgs ≤ 1) ∧
    (0 ≤ oneWordFrac msgs ∧ oneWordFrac msgs ≤ 1) ∧
    (0 ≤ emojiDensity msgs ∧ emojiDensity msgs ≤ 1) ∧
    (0 ≤ llmHeat judge comp msgs ∧ llmHeat judge comp msgs ≤ 10) ∧
    (0 ≤ llmDecay judge comp msgs ∧ llmDecay judge comp msgs ≤ 10) ∧
    (0 ≤ entropyNorm msgs ∧ entropyNorm msgs ≤ 1) ∧
    (0 ≤ effortScore msgs ∧ effortScore msgs ≤ 1) ∧
    0 ≤ gottmanRat comp msgs ∧
    (0 ≤ mirroringScore msgs ∧ mirroringScore msgs ≤ 1) ∧
    0 ≤ klDrift comp msgs ∧
    (0 ≤ heatScore judge comp msgs ∧ heatScore judge comp msgs ≤ 10) ∧
    (0 ≤ decayScore judge comp msgs ∧ decayScore judge comp msgs ≤ 10) :=
  ⟨senderAvgCompound_bounds comp true msgs hcomp,
   senderAvgCompound_bounds comp false msgs hcomp,
   oneWordFrac_bounds msgs, emojiDensity_bounds msgs,
   llmHeat_bounds judge comp msgs, llmDecay_bounds judge comp msgs,
   entropyNorm_bounds msgs, effortScore_bounds msgs,
   gottmanRat_nonneg comp msgs, mirroringScore_bounds msgs,
   klDrift_nonneg comp msgs, heatScore_bounds judge comp msgs,
   decayScore_bounds judge comp msgs⟩

/-- Witness for C3 at a concrete instantiation: the constantly-zero
lexicon, the failed generative call and the empty message sequence. -/
theorem c3_layer_bounds_witness :
    (∀ t : String, -1 ≤ (fun _ : String => (0 : ℚ)) t ∧
      (fun _ : String => (0 : ℚ)) t ≤ 1) ∧
    (-1 ≤ senderAvgCompound (fun _ => 0) true [] ∧
      senderAvgCompound (fun _ => 0) true [] ≤ 1) ∧
    (0 ≤ heatScore none (fun _ => 0) [] ∧ heatScore none (fun _ => 0) [] ≤ 10) :=
  ⟨fun _ => ⟨by norm_num, by norm_num⟩,
   (c3_layer_bounds none (fun _ => 0) [] (fun _ => ⟨by norm_num, by norm_num⟩)).1,
   (c3_layer_bounds none (fun _ => 0) []
     (fun _ => ⟨by norm_num, by norm_num⟩)).2.2.2.2.2.2.2.2.2.2.2.1⟩

/-- C4: on the empty message sequence the pipeline is total (the model
raises no exception by construction and no layer divides by zero: every
division is behind an explicit degenerate-case guard) and every layer
yields its documented neutral default — averages and trajectory `0`, count
ratio `1`, one-word and emoji fractions `0`, fallback Layer-3 heat `5` and
decay `0`, entropy `0`, composite effort `1`, Gottman ratio `1` (balanced),
emoji reciprocity `1` (both sets empty), KL drift `0` — the degraded-mode
flag is set, and the resulting node is `log_memory`, i.e. Route
`stable`. -/
theorem c4_empty_sequence_defaults (comp : String → ℚ) :
    senderAvgCompound comp true [] = 0 ∧ senderAvgCompound comp false [] = 0 ∧
    trajectory comp [] = 0 ∧ countRat [] = 1 ∧ oneWordFrac [] = 0 ∧
    emojiDensity [] = 0 ∧ llmHeat none comp [] = 5 ∧ llmDecay none comp [] = 0 ∧
    entropyNorm [] = 0 ∧ effortScore [] = 1 ∧ gottmanRat comp [] = 1 ∧
    emojiReciprocity [] = 1 ∧ klDrift comp [] = 0 ∧
    (analyze none none comp []).degraded = true ∧
    (analyze none none comp []).node = Node.log_memory ∧
    (analyze none none comp []).route = Route.stable := by
  have havg : avgCompound comp [] = 0 := rfl
  have howf : oneWordFrac [] = 0 := rfl
  have hllmH : llmHeat none comp [] = 5 := by
    show fallbackHeat comp [] = 5
    rw [fallbackHeat, havg, howf]
    norm_num [clamp010]
  have hllmD : llmDecay none comp [] = 0 := by
    show fallbackDecay [] = 0
    rw [fallbackDecay, howf]
    norm_num [clamp010]
  have hentropy : entropyNorm [] = 0 := by
    have hb : bucketDays [] = ∅ := rfl
    unfold entropyNorm
    rw [hb]
    norm_num
  have hlend : lengthDisparity [] = 1 := by
    rw [lengthDisparity, if_pos ⟨rfl, rfl⟩]
  have heffort : effortScore [] = 1 := by
    have hin : initNorm [] = 1 := by
      rw [initNorm, show initRat [] = 1/2 from rfl]
      norm_num
    have hq : questionRecip [] = 1 := by
      rw [questionRecip, show questionRecipOne true [] = 1 from rfl,
        show questionRecipOne false [] = 1 from rfl]
      norm_num
    rw [effortScore, hin, hq, hlend]
    norm_num
  have hgr : gottmanRat comp [] = 1 := rfl
  have hkl : klDrift comp [] = 0 := by
    unfold klDrift
    have hsp : ∀ half : List Msg, half = [] → ∀ i : Fin 5,
        smoothProb comp half i = 1/5 := by
      intro half hh i
      subst hh
      unfold smoothProb
      have hb : ∀ j : Fin 5, binCount comp [] j = 0 := fun _ => rfl
      simp only [hb, Nat.cast_zero, Finset.sum_const_zero, zero_add]
      norm_num [epsSmooth]
    have h1 : firstHalf ([] : List Msg) = [] := rfl
    have h2 : secondHalf ([] : List Msg) = [] := rfl
    refine Finset.sum_eq_zero ?_
    intro i _
    rw [hsp _ h1 i, hsp _ h2 i]
    norm_num
  have hheat : heatScore none comp [] = 51/20 := by
    unfold heatScore
    rw [show vaderHeatC comp [] = 5 by rw [vaderHeatC, havg]; norm_num [clamp010]]
    rw [show freqHeatC [] = 0 by rw [freqHeatC, howf]; norm_num [clamp010]]
    rw [hllmH]
    rw [show gottmanHeatC comp [] = 8 by rw [gottmanHeatC, hgr]; norm_num [clamp010]]
    rw [wVader, wFreq, wLlm, wEffort, wGottman, wEntropy, wMirroring, wKl]
    push_cast
    rw [clamp010R]
    rw [min_eq_right (by norm_num), max_eq_right (by norm_num)]
    norm_num
  have hdice : emojiReciprocity [] = 1 := by
    show dice (emojiSet true []) (emojiSet false []) = 1
    rw [show emojiSet true [] = ∅ from rfl, show emojiSet false [] = ∅ from rfl]
    rw [dice, if_pos ⟨rfl, rfl⟩]
  have hmirror : mirroringScore [] = 7/10 := by
    have hpron : pronounScore [] = 0 := by
      rw [pronounScore, pronounRat, show countWords wePronouns [] = 0 from rfl]
      norm_num
    rw [mirroringScore, hdice, hlend, hpron]
    norm_num
  have hdecay : decayScore none comp [] = 3/10 := by
    unfold decayScore
    rw [show vaderDecayC comp [] = 0 by
      rw [vaderDecayC, show trajectory comp [] = 0 from rfl]
      norm_num [clamp010]]
    rw [show freqDecayC [] = 0 by
      rw [freqDecayC, show countRat [] = 1 from rfl]
      norm_num [clamp010]]
    rw [hllmD]
    rw [show effortDecayC [] = 0 by rw [effortDecayC, heffort]; norm_num [clamp010]]
    rw [show entropyDecayC [] = 0 by
      rw [entropyDecayC, hentropy]
      norm_num [clamp010R]]
    rw [show mirroringDecayC [] = 3 by rw [mirroringDecayC, hmirror]; norm_num [clamp010]]
    rw [show klDecayC comp [] = 0 by
      rw [klDecayC, hkl]
      norm_num [clamp010R]]
    rw [wVader, wFreq, wLlm, wEffort, wGottman, wEntropy, wMirroring, wKl]
    push_cast
    rw [clamp010R]
    rw [min_eq_right (by norm_num), max_eq_right (by norm_num)]
    norm_num
  have hgs : gottmanStatus (gottmanRat comp []) = "At Risk" := by
    rw [hgr]
    rw [gottmanStatus]
    norm_num
  have hnode : (analyze none none comp []).node = Node.log_memory := by
    show routeNode (heatScore none comp []) (decayScore none comp [])
      (gottmanStatus (gottmanRat comp [])) (effortScore []) = Node.log_memory
    rw [hheat, hdecay, hgs, heffort, routeNode]
    rw [if_neg (by
      push_neg
      refine ⟨by norm_num, by decide⟩)]
    rw [if_neg (by
      push_neg
      refine ⟨by norm_num, by norm_num⟩)]
  have hroute : (analyze none none comp []).route = Route.stable := by
    have h0 : (analyze none none comp []).route =
        (analyze none none comp []).node.toRoute := rfl
    rw [h0, hnode]
    rfl
  exact ⟨rfl, rfl, rfl, rfl, howf, rfl, hllmH, hllmD, hentropy, heffort, hgr,
    hdice, hkl, rfl, hnode, hroute⟩

/-- C5: the `route` field of `analyze` always takes one of exactly the
three enum values `conflict`, `drifting`, `stable` of the data model's
`Route` type, and it factors through the pure router applied to the
composite scores and the Gottman/effort diagnostics — so it is a pure
function of the CompositeScore and diagnostics, independent of the drafting
call. -/
theorem c5_route_enum_pure :
    (∀ (judge : Option JudgeResp) (draftCall : Option (List String))
      (comp : String → ℚ) (msgs : List Msg),
      (analyze judge draftCall comp msgs).route =
        Node.toRoute (routeNode (heatScore judge comp msgs)
          (decayScore judge comp msgs)
          (gottmanStatus (gottmanRat comp msgs)) (effortScore msgs))) ∧
    (∀ r : Route, r = Route.conflict ∨ r = Route.drifting ∨ r = Route.stable) := by
  refine ⟨fun _ _ _ _ => rfl, fun r => ?_⟩
  cases r
  · exact Or.inl rfl
  · exact Or.inr (Or.inl rfl)
  · exact Or.inr (Or.inr rfl)

/-- C6: the eight composite-scorer layer weights (VADER .15, Frequency
.15, LLM .20, Effort .15, Gottman .10, Entropy .10, Mirroring .10,
KL-drift .05) sum to exactly 1, as a property of the constant weight
table. -/
theorem c6_weights_sum_to_one : weightTable.sum = 1 := by
  norm_num [weightTable, wVader, wFreq, wLlm, wEffort, wGottman, wEntropy,
    wMirroring, wKl]

/-- C7: determinism of the analysis.  `analyze` is a pure function, so two
runs on the identical message sequence (with the generative layer fixed)
yield identical CompositeScore and Route; moreover the composite scores and
the route are byte-for-byte independent of the drafting capability — no
generative drafting call participates in the routing decision. -/
theorem c7_analysis_determinism :
    (∀ (judge : Option JudgeResp) (draftCall : Option (List String))
      (comp : String → ℚ) (msgs : List Msg),
      analyze judge draftCall comp msgs = analyze judge draftCall comp msgs) ∧
    (∀ (judge : Option JudgeResp) (d₁ d₂ : Option (List String))
      (comp : String → ℚ) (msgs : List Msg),
      (analyze judge d₁ comp msgs).heat = (analyze judge d₂ comp msgs).heat ∧
      (analyze judge d₁ comp msgs).decay = (analyze judge d₂ comp msgs).decay ∧
      (analyze judge d₁ comp msgs).route = (analyze judge d₂ comp msgs).route) :=
  ⟨fun _ _ _ _ => rfl, fun _ _ _ _ _ => ⟨rfl, rfl, rfl⟩⟩

/-- C8: the Layer-7 emoji reciprocity is the Sørensen–Dice coefficient
`2·|A∩B|/(|A|+|B|)` over the two senders' sets of distinct emoji: it is `0`
for any two disjoint non-empty sets, `1` for any identical non-empty set,
and defined as `1` when both sets are empty. -/
theorem c8_dice_reciprocity :
    (∀ msgs : List Msg,
      emojiReciprocity msgs = dice (emojiSet true msgs) (emojiSet false msgs)) ∧
    (∀ A B : Finset Char, A.Nonempty → B.Nonempty → Disjoint A B → dice A B = 0) ∧
    (∀ A : Finset Char, A.Nonempty → dice A A = 1) ∧
    dice ∅ ∅ = 1 := by
  refine ⟨fun _ => rfl, fun A B hA hB hAB => ?_, fun A hA => ?_, ?_⟩
  · have hA' : A ≠ ∅ := Finset.nonempty_iff_ne_empty.mp hA
    rw [dice, if_neg (by tauto)]
    rw [Finset.disjoint_iff_inter_eq_empty.mp hAB]
    simp
  · have hA' : A ≠ ∅ := Finset.nonempty_iff_ne_empty.mp hA
    have hc : 0 < (A.card : ℚ) := by
      have := Finset.card_pos.mpr hA
      exact_mod_cast this
    rw [dice, if_neg (by tauto), Finset.inter_self]
    rw [two_mul]
    exact div_self (by linarith)
  · rw [dice, if_pos ⟨rfl, rfl⟩]

/-- Witness for C8 at the spec's concrete emoji sets: disjoint `{😀}`,
`{😢}` give reciprocity `0`; the identical set `{😀, 😢}` gives `1`. -/
theorem c8_dice_reciprocity_witness :
    (({'😀'} : Finset Char).Nonempty ∧ ({'😢'} : Finset Char).Nonempty ∧
      Disjoint ({'😀'} : Finset Char) ({'😢'} : Finset Char) ∧
      dice {'😀'} {'😢'} = 0) ∧
    (({'😀', '😢'} : Finset Char).Nonempty ∧
      dice {'😀', '😢'} {'😀', '😢'} = 1) := by
  have hd : Disjoint ({'😀'} : Finset Char) ({'😢'} : Finset Char) :=
    Finset.disjoint_singleton.mpr (by decide)
  exact ⟨⟨Finset.singleton_nonempty _, Finset.singleton_nonempty _, hd,
      c8_dice_reciprocity.2.1 _ _ (Finset.singleton_nonempty _)
        (Finset.singleton_nonempty _) hd⟩,
    ⟨Finset.insert_nonempty _ _,
      c8_dice_reciprocity.2.2.1 _ (Finset.insert_nonempty _ _)⟩⟩

/-- C9: in the WhatsApp bridge, when the backend POST of `flushBuffer`
fails the entire failed batch is re-queued in front of the messages
buffered during the attempt (`buffer = batch ++ arrivals`), so no captured
message is dropped and relative order is preserved; the `message_create`
handler triggers a flush exactly when the buffer has reached `BATCH_SIZE`,
which is 10, and the periodic flush interval constant is 30000 ms (30
seconds). -/
theorem c9_bridge_requeue :
    (∀ (st : BridgeState) (arrivals : List WireMsg),
      st.isProcessing = false → st.buffer ≠ [] →
        (flushBuffer false arrivals st).buffer = st.buffer ++ arrivals) ∧
    (∀ (m : WireMsg) (st : BridgeState), m.message ≠ "" →
      (handleMessageCreate false m st).2 =
        decide (BATCH_SIZE ≤ st.buffer.length + 1)) ∧
    BATCH_SIZE = 10 ∧ BATCH_INTERVAL_MS = 30000 := by
  refine ⟨fun st arrivals hp hb => ?_, fun m st hm => ?_, rfl, rfl⟩
  · rw [flushBuffer, if_neg (by simp [hp, hb])]
    simp
  · rw [handleMessageCreate, if_neg (by simp [hm])]
    simp

/-- Witness for C9: a failed flush of the singleton batch with one arrival
during the attempt, and a trigger check on a 9-message buffer. -/
theorem c9_bridge_requeue_witness :
    (BridgeState.mk [⟨"t0", "a", "hi", "whatsapp_live", "DM", false⟩] false).isProcessing = false ∧
    (BridgeState.mk [⟨"t0", "a", "hi", "whatsapp_live", "DM", false⟩] false).buffer ≠ [] ∧
    (WireMsg.mk "t1" "b" "yo" "whatsapp_live" "DM" false).message ≠ "" ∧
    (flushBuffer false [⟨"t1", "b", "yo", "whatsapp_live", "DM", false⟩]
        (BridgeState.mk [⟨"t0", "a", "hi", "whatsapp_live", "DM", false⟩] false)).buffer =
      [⟨"t0", "a", "hi", "whatsapp_live", "DM", false⟩,
       ⟨"t1", "b", "yo", "whatsapp_live", "DM", false⟩] := by
  refine ⟨rfl, by simp, by simp, ?_⟩
  exact c9_bridge_requeue.1 _ _ rfl (by simp)

/-- C10: the dashboard's displayed health score is
`100 - (heat*5 + decay*5) = 100 - 5*(heat + decay)` in both the
upload-result modal and the priority list; when `heat` and `decay` each lie
in `[0,10]` it lies in `[0,100]`, equaling `100` at `(0,0)` and `0` at
`(10,10)`. -/
theorem c10_dashboard_health (heat decay : ℚ)
    (h1 : 0 ≤ heat) (h2 : heat ≤ 10) (h3 : 0 ≤ decay) (h4 : decay ≤ 10) :
    healthScoreModal heat decay = 100 - 5 * (heat + decay) ∧
    healthScorePriority heat decay = 100 - 5 * (heat + decay) ∧
    healthScorePriority heat decay = healthScoreModal heat decay ∧
    0 ≤ healthScoreModal heat decay ∧ healthScoreModal heat decay ≤ 100 ∧
    healthScoreModal 0 0 = 100 ∧ healthScoreModal 10 10 = 0 := by
  unfold healthScoreModal healthScorePriority
  refine ⟨by ring, by ring, rfl, by linarith, by linarith, by norm_num, by norm_num⟩

/-- Witness for C10 at `heat = 7`, `decay = 2`: health score `55`. -/
theorem c10_dashboard_health_witness :
    ((0 : ℚ) ≤ 7 ∧ (7 : ℚ) ≤ 10 ∧ (0 : ℚ) ≤ 2 ∧ (2 : ℚ) ≤ 10) ∧
    healthScoreModal 7 2 = 100 - 5 * (7 + 2) :=
  ⟨⟨by norm_num, by norm_num, by norm_num, by norm_num⟩,
    (c10_dashboard_health 7 2 (by norm_num) (by norm_num) (by norm_num)
      (by norm_num)).1⟩

end Affinity
